import Mathlib

/-!
# Shallow embedding of `architecture.py` (sign-language-glove sequence model)

The source file defines three `torch.nn` modules:

* `TemporalCNN`   — two blocks of {Conv1d(k=3,s=1,p=1) → BatchNorm1d → ReLU → MaxPool1d(2,2)},
                    channels 8→64→128;
* `SelfAttention` — scaled dot-product self-attention with three `nn.Linear(D, D)` projections;
* `LSTMModel`     — permute(0,2,1) → TemporalCNN → permute(0,2,1) → 3-layer bidirectional
                    LSTM (hidden 128, batch_first) → SelfAttention → Linear(256, output_size).

The embedding below represents a 3-D tensor as its three dimension sizes plus a total
data function, scalars as `ℚ`, and each fallible tensor operation as an `Option`-returning
function whose guards mirror the shape checks the PyTorch layers perform at run time.
The real-valued transcendental functions used by the layers (`math.sqrt`, the softmax
exponential, the LSTM sigmoid/tanh) are abstracted as an explicit bundle `Funs` of
functions `ℚ → ℚ`, since no property proved here depends on their values beyond
positivity of the exponential.  Mutable module state (the BatchNorm running statistics)
is modelled by explicit state passing: a forward call returns the updated module.
-/

/-- A rank-3 tensor: three dimension sizes and a total data function.
Entries outside the index ranges are irrelevant junk. -/
structure Tensor3 where
  n0 : ℕ
  n1 : ℕ
  n2 : ℕ
  data : ℕ → ℕ → ℕ → ℚ

/-- The abstract real-valued scalar functions used by the layers:
`math.sqrt` (attention scaling, batch-norm denominator), `exp` (softmax),
and the LSTM gate nonlinearities `sigmoid` and `tanh`. -/
structure Funs where
  sqrt : ℚ → ℚ
  exp : ℚ → ℚ
  sigmoid : ℚ → ℚ
  tanh : ℚ → ℚ

/-- `x.permute(0, 2, 1)`: swap the last two axes. -/
def permute021 (x : Tensor3) : Tensor3 :=
  ⟨x.n0, x.n2, x.n1, fun b i j => x.data b j i⟩

/-- Read an input position for a padded convolution: zero outside `[0, x.n2)`. -/
def padGet (x : Tensor3) (b c : ℕ) (i : ℤ) : ℚ :=
  if 0 ≤ i ∧ i < (x.n2 : ℤ) then x.data b c i.toNat else 0

/-- Output tensor of `nn.Conv1d(inC, outC, kernel_size = k, stride = s, padding = p)`
on input `[B, inC, L]`: shape `[B, outC, (L + 2p − k)/s + 1]` with the usual
cross-correlation data. -/
def conv1dOut (inC outC k s p : ℕ) (w : ℕ → ℕ → ℕ → ℚ) (bias : ℕ → ℚ)
    (x : Tensor3) : Tensor3 :=
  ⟨x.n0, outC, (x.n2 + 2 * p - k) / s + 1, fun b o t =>
    bias o + ∑ c ∈ Finset.range inC, ∑ j ∈ Finset.range k,
      w o c j * padGet x b c ((s * t + j : ℕ) - (p : ℤ))⟩

/-- `nn.Conv1d` forward: errors (returns `none`) when the input channel count differs
from `in_channels` or when the padded length is smaller than the kernel. -/
def conv1d (inC outC k s p : ℕ) (w : ℕ → ℕ → ℕ → ℚ) (bias : ℕ → ℚ)
    (x : Tensor3) : Option Tensor3 :=
  if x.n1 = inC ∧ k ≤ x.n2 + 2 * p then some (conv1dOut inC outC k s p w bias x) else none

/-- `nn.BatchNorm1d` layer state: the learned per-channel affine parameters and the
buffers (`running_mean`, `running_var`, `num_batches_tracked`) that torch's
`_BatchNorm` keeps and updates during training-mode forward calls. -/
structure BatchNorm1d where
  num_features : ℕ
  weight : ℕ → ℚ
  bias : ℕ → ℚ
  running_mean : ℕ → ℚ
  running_var : ℕ → ℚ
  num_batches_tracked : ℕ
  momentum : ℚ
  eps : ℚ

/-- Per-channel batch mean over the batch and time axes of a `[B, C, L]` tensor. -/
def batchMean (x : Tensor3) (c : ℕ) : ℚ :=
  (∑ b ∈ Finset.range x.n0, ∑ t ∈ Finset.range x.n2, x.data b c t) / ((x.n0 * x.n2 : ℕ) : ℚ)

/-- Per-channel biased batch variance (the one used to normalize in training mode). -/
def batchVar (x : Tensor3) (c : ℕ) : ℚ :=
  (∑ b ∈ Finset.range x.n0, ∑ t ∈ Finset.range x.n2, (x.data b c t - batchMean x c) ^ 2)
    / ((x.n0 * x.n2 : ℕ) : ℚ)

/-- Per-channel unbiased batch variance (the one blended into `running_var`). -/
def batchVarUnbiased (x : Tensor3) (c : ℕ) : ℚ :=
  (∑ b ∈ Finset.range x.n0, ∑ t ∈ Finset.range x.n2, (x.data b c t - batchMean x c) ^ 2)
    / (((x.n0 * x.n2 : ℕ) : ℚ) - 1)

/-- The buffer update a training-mode BatchNorm forward performs: momentum-blend the
running mean and (unbiased) running variance and increment `num_batches_tracked`. -/
def BatchNorm1d.trainStep (bn : BatchNorm1d) (x : Tensor3) : BatchNorm1d :=
  { bn with
    running_mean := fun c =>
      (1 - bn.momentum) * bn.running_mean c + bn.momentum * batchMean x c,
    running_var := fun c =>
      (1 - bn.momentum) * bn.running_var c + bn.momentum * batchVarUnbiased x c,
    num_batches_tracked := bn.num_batches_tracked + 1 }

/-- Training-mode BatchNorm output: normalize with the biased batch statistics. -/
def bnTrainOut (F : Funs) (bn : BatchNorm1d) (x : Tensor3) : Tensor3 :=
  ⟨x.n0, x.n1, x.n2, fun b c t =>
    (x.data b c t - batchMean x c) / F.sqrt (batchVar x c + bn.eps) * bn.weight c + bn.bias c⟩

/-- Evaluation-mode BatchNorm output: normalize with the stored running statistics. -/
def bnEvalOut (F : Funs) (bn : BatchNorm1d) (x : Tensor3) : Tensor3 :=
  ⟨x.n0, x.n1, x.n2, fun b c t =>
    (x.data b c t - bn.running_mean c) / F.sqrt (bn.running_var c + bn.eps) * bn.weight c
      + bn.bias c⟩

/-- `nn.BatchNorm1d` forward on a `[B, C, L]` input.  Errors when `C` differs from
`num_features`, or (training mode) when there are not at least two values per channel.
In training mode the buffers are updated; in evaluation mode the state is unchanged. -/
def BatchNorm1d.forward (F : Funs) (training : Bool) (bn : BatchNorm1d) (x : Tensor3) :
    Option (Tensor3 × BatchNorm1d) :=
  if x.n1 = bn.num_features then
    if training then
      if 1 < x.n0 * x.n2 then some (bnTrainOut F bn x, bn.trainStep x) else none
    else
      some (bnEvalOut F bn x, bn)
  else none

/-- `nn.ReLU` applied elementwise (the in-place flag is irrelevant in a pure model). -/
def relu3 (x : Tensor3) : Tensor3 :=
  ⟨x.n0, x.n1, x.n2, fun b c t => max 0 (x.data b c t)⟩

/-- Maximum of `f 0, …, f n`. -/
def winMax (f : ℕ → ℚ) : ℕ → ℚ
  | 0 => f 0
  | n + 1 => max (winMax f n) (f (n + 1))

/-- Output tensor of `nn.MaxPool1d(kernel_size = k, stride = s)` on `[B, C, L]`:
shape `[B, C, (L − k)/s + 1]`, each entry the max over its window. -/
def maxPool1dOut (k s : ℕ) (x : Tensor3) : Tensor3 :=
  ⟨x.n0, x.n1, (x.n2 - k) / s + 1, fun b c t => winMax (fun j => x.data b c (s * t + j)) (k - 1)⟩

/-- `nn.MaxPool1d` forward: errors when the input is shorter than the window
(torch rejects a computed output size of zero). -/
def maxPool1d (k s : ℕ) (x : Tensor3) : Option Tensor3 :=
  if k ≤ x.n2 then some (maxPool1dOut k s x) else none

/-- An `nn.Linear(in_features, out_features)` layer. -/
structure Linear where
  in_features : ℕ
  out_features : ℕ
  weight : ℕ → ℕ → ℚ
  bias : ℕ → ℚ

/-- Output of `nn.Linear` applied to the last axis of a rank-3 input. -/
def linearOut (L : Linear) (x : Tensor3) : Tensor3 :=
  ⟨x.n0, x.n1, L.out_features, fun b t o =>
    L.bias o + ∑ d ∈ Finset.range L.in_features, L.weight o d * x.data b t d⟩

/-- `nn.Linear` forward on a rank-3 input: applied independently at every position of
the first two axes; errors when the last axis differs from `in_features`. -/
def Linear.forward (L : Linear) (x : Tensor3) : Option Tensor3 :=
  if x.n2 = L.in_features then some (linearOut L x) else none

/-- Output of batched `torch.matmul` on `[B, n, m] × [B, m, p]`. -/
def matmul3Out (a b : Tensor3) : Tensor3 :=
  ⟨a.n0, a.n1, b.n2, fun p i j => ∑ q ∈ Finset.range a.n2, a.data p i q * b.data p q j⟩

/-- Batched `torch.matmul` on rank-3 tensors: errors unless the batch sizes agree and
the inner dimensions match. -/
def matmul3 (a b : Tensor3) : Option Tensor3 :=
  if a.n0 = b.n0 ∧ a.n2 = b.n1 then some (matmul3Out a b) else none

/-- Elementwise division of a tensor by a scalar (`attn_scores /= …`). -/
def scalarDiv (x : Tensor3) (c : ℚ) : Tensor3 :=
  ⟨x.n0, x.n1, x.n2, fun b i j => x.data b i j / c⟩

/-- `nn.functional.softmax(·, dim = -1)` with an explicit exponential function. -/
def softmaxLast (exp : ℚ → ℚ) (x : Tensor3) : Tensor3 :=
  ⟨x.n0, x.n1, x.n2, fun b i j =>
    exp (x.data b i j) / ∑ k ∈ Finset.range x.n2, exp (x.data b i k)⟩

/-! ## The `TemporalCNN` module -/

/-- `TemporalCNN`: two Conv1d layers with their BatchNorm layers (`architecture.py`,
`TemporalCNN.__init__`).  Channel widths 64 and 128 are hardcoded in the source. -/
structure TemporalCNN where
  input_size : ℕ
  conv1_weight : ℕ → ℕ → ℕ → ℚ
  conv1_bias : ℕ → ℚ
  bn1 : BatchNorm1d
  conv2_weight : ℕ → ℕ → ℕ → ℚ
  conv2_bias : ℕ → ℚ
  bn2 : BatchNorm1d

/-- The wiring `TemporalCNN.__init__` establishes: the BatchNorm widths equal the
out-channel counts of the convolutions they follow. -/
def TemporalCNN.WF (s : TemporalCNN) : Prop :=
  s.bn1.num_features = 64 ∧ s.bn2.num_features = 128

/-- `TemporalCNN.forward`: the `conv_layers` sequential pipeline
Conv1d(input_size→64,3,1,1) → BatchNorm1d(64) → ReLU → MaxPool1d(2,2) →
Conv1d(64→128,3,1,1) → BatchNorm1d(128) → ReLU → MaxPool1d(2,2),
with the BatchNorm buffer updates threaded through as explicit state. -/
def TemporalCNN.forward (F : Funs) (training : Bool) (s : TemporalCNN) (x : Tensor3) :
    Option (Tensor3 × TemporalCNN) :=
  (conv1d s.input_size 64 3 1 1 s.conv1_weight s.conv1_bias x).bind fun a1 =>
  (BatchNorm1d.forward F training s.bn1 a1).bind fun r1 =>
  (maxPool1d 2 2 (relu3 r1.1)).bind fun a4 =>
  (conv1d 64 128 3 1 1 s.conv2_weight s.conv2_bias a4).bind fun a5 =>
  (BatchNorm1d.forward F training s.bn2 a5).bind fun r2 =>
  (maxPool1d 2 2 (relu3 r2.1)).map fun a8 =>
  (a8, { s with bn1 := r1.2, bn2 := r2.2 })

/-! ## The `SelfAttention` module -/

/-- `SelfAttention`: the feature width and the three projection layers
(`architecture.py`, `SelfAttention.__init__`). -/
structure SelfAttention where
  num_features : ℕ
  key_matrix : Linear
  query_matrix : Linear
  value_matrix : Linear

/-- The wiring `SelfAttention.__init__` establishes: all three projections are
`nn.Linear(num_features, num_features)`. -/
def SelfAttention.WF (sa : SelfAttention) : Prop :=
  sa.key_matrix.in_features = sa.num_features ∧
  sa.key_matrix.out_features = sa.num_features ∧
  sa.query_matrix.in_features = sa.num_features ∧
  sa.query_matrix.out_features = sa.num_features ∧
  sa.value_matrix.in_features = sa.num_features ∧
  sa.value_matrix.out_features = sa.num_features

/-- `SelfAttention.forward`: key/query/value projections, scores
`matmul(query, keyᵀ) / sqrt(num_features)`, softmax along the last axis, and
output `matmul(weights, value)`.  Returns `(outputs, attn_weights)`. -/
def SelfAttention.forward (F : Funs) (sa : SelfAttention) (x : Tensor3) :
    Option (Tensor3 × Tensor3) :=
  (sa.key_matrix.forward x).bind fun key_vecs =>
  (sa.query_matrix.forward x).bind fun query_vecs =>
  (sa.value_matrix.forward x).bind fun value_vecs =>
  (matmul3 query_vecs (permute021 key_vecs)).bind fun attn_scores =>
  let attn_weights := softmaxLast F.exp (scalarDiv attn_scores (F.sqrt ((sa.num_features : ℚ))))
  (matmul3 attn_weights value_vecs).map fun outputs =>
  (outputs, attn_weights)

/-! ## The LSTM stage

`LSTMModel.__init__` fixes `lstm_input_dim = 128`, `lstm_hidden_dim = 128`,
`num_lstm_layers = 3`, `bidir_lstm = True`; the embedding keeps them as constants. -/

def lstm_input_dim : ℕ := 128

def lstm_hidden_dim : ℕ := 128

def num_lstm_layers : ℕ := 3

def bidir_lstm : Bool := true

def lstm_output_dim : ℕ := if bidir_lstm then lstm_hidden_dim * 2 else lstm_hidden_dim

/-- Weights of `nn.LSTM`: for each layer and direction (`true` = reverse), the
input-hidden and hidden-hidden matrices (rows indexed by the four stacked gates
i, f, g, o, each of height `lstm_hidden_dim`) and the two bias vectors. -/
structure LSTMWeights where
  w_ih : ℕ → Bool → ℕ → ℕ → ℚ
  w_hh : ℕ → Bool → ℕ → ℕ → ℚ
  b_ih : ℕ → Bool → ℕ → ℚ
  b_hh : ℕ → Bool → ℕ → ℚ

/-- The stacked gate pre-activations `W_ih · x_t + b_ih + W_hh · h + b_hh`. -/
def lstmGates (inDim : ℕ) (wih whh : ℕ → ℕ → ℚ) (bih bhh : ℕ → ℚ)
    (xt h : ℕ → ℚ) (j : ℕ) : ℚ :=
  (∑ d ∈ Finset.range inDim, wih j d * xt d) + bih j
    + (∑ u ∈ Finset.range lstm_hidden_dim, whh j u * h u) + bhh j

/-- One LSTM cell step: gate order i, f, g, o; `c' = f∘c + i∘g`, `h' = o∘tanh c'`. -/
def lstmCell (F : Funs) (inDim : ℕ) (wih whh : ℕ → ℕ → ℚ) (bih bhh : ℕ → ℚ)
    (xt : ℕ → ℚ) (hc : (ℕ → ℚ) × (ℕ → ℚ)) : (ℕ → ℚ) × (ℕ → ℚ) :=
  let z := lstmGates inDim wih whh bih bhh xt hc.1
  let i := fun u => F.sigmoid (z u)
  let f := fun u => F.sigmoid (z (lstm_hidden_dim + u))
  let g := fun u => F.tanh (z (2 * lstm_hidden_dim + u))
  let o := fun u => F.sigmoid (z (3 * lstm_hidden_dim + u))
  let c : ℕ → ℚ := fun u => f u * hc.2 u + i u * g u
  (fun u => o u * F.tanh (c u), c)

/-- `(h, c)` after consuming timesteps `0, …, n−1` of one sequence, starting from the
zero initial state (the source passes no `hx`, so torch uses zeros). -/
def lstmIter (F : Funs) (inDim : ℕ) (wih whh : ℕ → ℕ → ℚ) (bih bhh : ℕ → ℚ)
    (seq : ℕ → ℕ → ℚ) : ℕ → (ℕ → ℚ) × (ℕ → ℚ)
  | 0 => (fun _ => 0, fun _ => 0)
  | n + 1 => lstmCell F inDim wih whh bih bhh (seq n) (lstmIter F inDim wih whh bih bhh seq n)

/-- One bidirectional LSTM layer on one sequence of length `T`: per position, the
forward-direction hidden state after reading `0..t` concatenated with the
reverse-direction hidden state after reading `T−1..t`. -/
def lstmLayerSeq (F : Funs) (w : LSTMWeights) (l : ℕ) (T : ℕ) (seq : ℕ → ℕ → ℚ) :
    ℕ → ℕ → ℚ :=
  let inDim := if l = 0 then lstm_input_dim else lstm_output_dim
  let fwd := fun t => (lstmIter F inDim (w.w_ih l false) (w.w_hh l false)
    (w.b_ih l false) (w.b_hh l false) seq (t + 1)).1
  let rseq := fun t => seq (T - 1 - t)
  let bwd := fun t => (lstmIter F inDim (w.w_ih l true) (w.w_hh l true)
    (w.b_ih l true) (w.b_hh l true) rseq (T - t)).1
  fun t d => if d < lstm_hidden_dim then fwd t d else bwd t (d - lstm_hidden_dim)

/-- The first `n` layers of the stacked LSTM applied to one sequence. -/
def lstmStackSeq (F : Funs) (w : LSTMWeights) (T : ℕ) : ℕ → (ℕ → ℕ → ℚ) → ℕ → ℕ → ℚ
  | 0 => fun seq => seq
  | l + 1 => fun seq => lstmLayerSeq F w l T (lstmStackSeq F w T l seq)

/-- The per-timestep output sequence of the full stacked bidirectional LSTM on a
`[B, T, lstm_input_dim]` input: shape `[B, T, lstm_output_dim]`. -/
def lstmOutputs (F : Funs) (w : LSTMWeights) (x : Tensor3) : Tensor3 :=
  ⟨x.n0, x.n1, lstm_output_dim, fun b =>
    lstmStackSeq F w x.n1 num_lstm_layers (x.data b)⟩

/-- Final hidden state `h_n` of the stacked LSTM, shape
`[num_lstm_layers * 2, B, lstm_hidden_dim]`, row `2*l + dir` as in torch. -/
def lstmFinalH (F : Funs) (w : LSTMWeights) (x : Tensor3) : Tensor3 :=
  ⟨num_lstm_layers * 2, x.n0, lstm_hidden_dim, fun ld b =>
    let l := ld / 2
    let rev := ld % 2 = 1
    let inDim := if l = 0 then lstm_input_dim else lstm_output_dim
    let seq := lstmStackSeq F w x.n1 l (x.data b)
    let seq' := if rev then (fun t => seq (x.n1 - 1 - t)) else seq
    (lstmIter F inDim (w.w_ih l rev) (w.w_hh l rev) (w.b_ih l rev) (w.b_hh l rev)
      seq' x.n1).1⟩

/-- Final cell state `c_n` of the stacked LSTM, laid out like `h_n`. -/
def lstmFinalC (F : Funs) (w : LSTMWeights) (x : Tensor3) : Tensor3 :=
  ⟨num_lstm_layers * 2, x.n0, lstm_hidden_dim, fun ld b =>
    let l := ld / 2
    let rev := ld % 2 = 1
    let inDim := if l = 0 then lstm_input_dim else lstm_output_dim
    let seq := lstmStackSeq F w x.n1 l (x.data b)
    let seq' := if rev then (fun t => seq (x.n1 - 1 - t)) else seq
    (lstmIter F inDim (w.w_ih l rev) (w.w_hh l rev) (w.b_ih l rev) (w.b_hh l rev)
      seq' x.n1).2⟩

/-- `nn.LSTM` forward (`batch_first = True`, no `hx`): errors when the feature axis
differs from `input_size`; returns `(output, (h_n, c_n))`. -/
def LSTMWeights.forward (F : Funs) (w : LSTMWeights) (x : Tensor3) :
    Option (Tensor3 × Tensor3 × Tensor3) :=
  if x.n2 = lstm_input_dim then
    some (lstmOutputs F w x, lstmFinalH F w x, lstmFinalC F w x)
  else none

/-! ## The `LSTMModel` orchestrator -/

/-- `LSTMModel`: the four sub-modules and the two construction parameters
(`architecture.py`, `LSTMModel.__init__`). -/
structure LSTMModel where
  input_size : ℕ
  output_size : ℕ
  conv_layer : TemporalCNN
  lstm_layer : LSTMWeights
  attention : SelfAttention
  linear_layer : Linear

/-- The wiring `LSTMModel.__init__` establishes: the CNN is built with the model's
`input_size`, the attention width is `lstm_output_dim = 256`, and the final linear
layer maps `lstm_output_dim` to `output_size`. -/
def LSTMModel.WF (m : LSTMModel) : Prop :=
  m.conv_layer.input_size = m.input_size ∧
  TemporalCNN.WF m.conv_layer ∧
  SelfAttention.WF m.attention ∧
  m.attention.num_features = lstm_output_dim ∧
  m.linear_layer.in_features = lstm_output_dim ∧
  m.linear_layer.out_features = m.output_size

/-- `LSTMModel.forward`: permute(0,2,1) → TemporalCNN → permute(0,2,1) → LSTM
(final hidden/cell states discarded) → SelfAttention (attention weights discarded) →
final Linear.  Returns the logits and the model with its updated CNN state. -/
def LSTMModel.forward (F : Funs) (m : LSTMModel) (training : Bool) (x : Tensor3) :
    Option (Tensor3 × LSTMModel) :=
  let x1 := permute021 x
  (TemporalCNN.forward F training m.conv_layer x1).bind fun r1 =>
  (LSTMWeights.forward F m.lstm_layer (permute021 r1.1)).bind fun r2 =>
  (SelfAttention.forward F m.attention r2.1).bind fun r3 =>
  (m.linear_layer.forward r3.1).map fun outputs3 =>
  (outputs3, { m with conv_layer := r1.2 })

/-- All intermediate results of one `LSTMModel.forward` call, for stating which of
them the public return value keeps. -/
structure ForwardTrace where
  cnn_out : Tensor3
  cnn_state : TemporalCNN
  lstm_out : Tensor3
  final_hidden : Tensor3
  final_cell : Tensor3
  attn_out : Tensor3
  attn_weights : Tensor3
  logits : Tensor3

/-- The same pipeline as `LSTMModel.forward`, retaining every intermediate result. -/
def LSTMModel.forwardTrace (F : Funs) (m : LSTMModel) (training : Bool) (x : Tensor3) :
    Option ForwardTrace :=
  (TemporalCNN.forward F training m.conv_layer (permute021 x)).bind fun r1 =>
  (LSTMWeights.forward F m.lstm_layer (permute021 r1.1)).bind fun r2 =>
  (SelfAttention.forward F m.attention r2.1).bind fun r3 =>
  (m.linear_layer.forward r3.1).map fun outputs3 =>
  ⟨r1.1, r1.2, r2.1, r2.2.1, r2.2.2, r3.1, r3.2, outputs3⟩

/-- `LSTMModel.forward` from its second statement on: the pipeline applied to the
already-permuted input.  `LSTMModel.forward` is exactly this composed with
`permute021`, which pins down the axis layout the public entry point accepts. -/
def LSTMModel.forwardFromPermuted (F : Funs) (m : LSTMModel) (training : Bool)
    (xp : Tensor3) : Option (Tensor3 × LSTMModel) :=
  (TemporalCNN.forward F training m.conv_layer xp).bind fun r1 =>
  (LSTMWeights.forward F m.lstm_layer (permute021 r1.1)).bind fun r2 =>
  (SelfAttention.forward F m.attention r2.1).bind fun r3 =>
  (m.linear_layer.forward r3.1).map fun outputs3 =>
  (outputs3, { m with conv_layer := r1.2 })

/-! ## Spec-side description of the attention block

Modelled from the spec: §4.2 describes the key/query/value projections, the raw
scores `matmul(query, keyᵀ) / sqrt(D)`, the softmax over the key axis, and the
output `matmul(weights, value)`.  These definitions follow the spec's words and are
compared against `SelfAttention.forward` (translated from the source) in the
refinement theorem for the attention contract. -/

/-- Spec-side key projection of timestep `t` of batch row `b`. -/
def saSpecKey (sa : SelfAttention) (x : Tensor3) (b t d : ℕ) : ℚ :=
  sa.key_matrix.bias d + ∑ e ∈ Finset.range sa.num_features, sa.key_matrix.weight d e * x.data b t e

/-- Spec-side query projection. -/
def saSpecQuery (sa : SelfAttention) (x : Tensor3) (b t d : ℕ) : ℚ :=
  sa.query_matrix.bias d + ∑ e ∈ Finset.range sa.num_features, sa.query_matrix.weight d e * x.data b t e

/-- Spec-side value projection. -/
def saSpecValue (sa : SelfAttention) (x : Tensor3) (b t d : ℕ) : ℚ :=
  sa.value_matrix.bias d + ∑ e ∈ Finset.range sa.num_features, sa.value_matrix.weight d e * x.data b t e

/-- Spec-side scaled score: `query_i · key_j` divided by `sqrt(D)`. -/
def saSpecScore (F : Funs) (sa : SelfAttention) (x : Tensor3) (b i j : ℕ) : ℚ :=
  (∑ d ∈ Finset.range sa.num_features, saSpecQuery sa x b i d * saSpecKey sa x b j d)
    / F.sqrt ((sa.num_features : ℚ))

/-- Spec-side attention weight: softmax of the scaled scores over the key timestep. -/
def saSpecWeight (F : Funs) (sa : SelfAttention) (x : Tensor3) (b i j : ℕ) : ℚ :=
  F.exp (saSpecScore F sa x b i j) / ∑ k ∈ Finset.range x.n1, F.exp (saSpecScore F sa x b i k)

/-- Spec-side attention output: `Σ_j weights[i,j] · value_j`. -/
def saSpecOut (F : Funs) (sa : SelfAttention) (x : Tensor3) (b i d : ℕ) : ℚ :=
  ∑ j ∈ Finset.range x.n1, saSpecWeight F sa x b i j * saSpecValue sa x b j d

/-! ## Concrete instances used by witnesses and counterexamples -/

/-- A concrete function bundle: identity square root / sigmoid / tanh and the
constant-one (hence everywhere positive) exponential. -/
def F0 : Funs := ⟨fun q => q, fun _ => 1, fun q => q, fun q => q⟩

/-- All-zero rank-3 weight array. -/
def zw3 : ℕ → ℕ → ℕ → ℚ := fun _ _ _ => 0

/-- All-zero rank-2 weight array. -/
def zw2 : ℕ → ℕ → ℚ := fun _ _ => 0

/-- All-zero vector. -/
def zw1 : ℕ → ℚ := fun _ => 0

/-- The all-zero tensor of a given shape. -/
def zt (a b c : ℕ) : Tensor3 := ⟨a, b, c, fun _ _ _ => 0⟩

/-- A freshly initialized BatchNorm layer with torch's default buffers
(`running_mean = 0`, `running_var = 1`, `num_batches_tracked = 0`, momentum `0.1`,
eps `1e-5`) and zero affine parameters. -/
def exBN (nf : ℕ) : BatchNorm1d := ⟨nf, zw1, zw1, zw1, fun _ => 1, 0, 1 / 10, 1 / 100000⟩

/-- A zero-weight `TemporalCNN` with the source's BatchNorm widths. -/
def exCNN (c : ℕ) : TemporalCNN := ⟨c, zw3, zw1, exBN 64, zw3, zw1, exBN 128⟩

/-- A zero-weight linear layer. -/
def exLin (i o : ℕ) : Linear := ⟨i, o, zw2, zw1⟩

/-- A zero-weight attention block of width `d`. -/
def exSA (d : ℕ) : SelfAttention := ⟨d, exLin d d, exLin d d, exLin d d⟩

/-- Zero LSTM weights. -/
def exLSTMW : LSTMWeights := ⟨fun _ _ _ _ => 0, fun _ _ _ _ => 0, fun _ _ _ => 0, fun _ _ _ => 0⟩

/-- A zero-weight `LSTMModel` with `input_size = 8`, `output_size = 2`, wired as
`LSTMModel.__init__` wires its sub-modules. -/
def exM : LSTMModel := ⟨8, 2, exCNN 8, exLSTMW, exSA 256, exLin 256 2⟩

/-- A concrete training-mode run of the zero-weight single-channel CNN on the
all-zero `[1, 1, 4]` input. -/
def exRun8 : Option (Tensor3 × TemporalCNN) := TemporalCNN.forward F0 true (exCNN 1) (zt 1 1 4)

/-- The output tensor of `exRun8`. -/
def exY8 : Tensor3 := (exRun8.map Prod.fst).getD (zt 0 0 0)

/-- The post-call CNN state of `exRun8`. -/
def exS8 : TemporalCNN := (exRun8.map Prod.snd).getD (exCNN 1)

/-! ## Shape and guard lemmas for the primitive layers -/

@[simp] theorem conv1dOut_n0 (inC outC k s p w b x) : (conv1dOut inC outC k s p w b x).n0 = x.n0 := rfl

@[simp] theorem conv1dOut_n1 (inC outC k s p w b x) : (conv1dOut inC outC k s p w b x).n1 = outC := rfl

@[simp] theorem conv1dOut_n2 (inC outC k s p w b x) :
    (conv1dOut inC outC k s p w b x).n2 = (x.n2 + 2 * p - k) / s + 1 := rfl

@[simp] theorem bnTrainOut_n0 (F bn x) : (bnTrainOut F bn x).n0 = x.n0 := rfl

@[simp] theorem bnTrainOut_n1 (F bn x) : (bnTrainOut F bn x).n1 = x.n1 := rfl

@[simp] theorem bnTrainOut_n2 (F bn x) : (bnTrainOut F bn x).n2 = x.n2 := rfl

@[simp] theorem bnEvalOut_n0 (F bn x) : (bnEvalOut F bn x).n0 = x.n0 := rfl

@[simp] theorem bnEvalOut_n1 (F bn x) : (bnEvalOut F bn x).n1 = x.n1 := rfl

@[simp] theorem bnEvalOut_n2 (F bn x) : (bnEvalOut F bn x).n2 = x.n2 := rfl

@[simp] theorem relu3_n0 (x) : (relu3 x).n0 = x.n0 := rfl

@[simp] theorem relu3_n1 (x) : (relu3 x).n1 = x.n1 := rfl

@[simp] theorem relu3_n2 (x) : (relu3 x).n2 = x.n2 := rfl

@[simp] theorem maxPool1dOut_n0 (k s x) : (maxPool1dOut k s x).n0 = x.n0 := rfl

@[simp] theorem maxPool1dOut_n1 (k s x) : (maxPool1dOut k s x).n1 = x.n1 := rfl

@[simp] theorem maxPool1dOut_n2 (k s x) : (maxPool1dOut k s x).n2 = (x.n2 - k) / s + 1 := rfl

@[simp] theorem linearOut_n0 (L x) : (linearOut L x).n0 = x.n0 := rfl

@[simp] theorem linearOut_n1 (L x) : (linearOut L x).n1 = x.n1 := rfl

@[simp] theorem linearOut_n2 (L x) : (linearOut L x).n2 = L.out_features := rfl

@[simp] theorem matmul3Out_n0 (a b) : (matmul3Out a b).n0 = a.n0 := rfl

@[simp] theorem matmul3Out_n1 (a b) : (matmul3Out a b).n1 = a.n1 := rfl

@[simp] theorem matmul3Out_n2 (a b) : (matmul3Out a b).n2 = b.n2 := rfl

@[simp] theorem permute021_n0 (x) : (permute021 x).n0 = x.n0 := rfl

@[simp] theorem permute021_n1 (x) : (permute021 x).n1 = x.n2 := rfl

@[simp] theorem permute021_n2 (x) : (permute021 x).n2 = x.n1 := rfl

@[simp] theorem scalarDiv_n0 (x c) : (scalarDiv x c).n0 = x.n0 := rfl

@[simp] theorem scalarDiv_n1 (x c) : (scalarDiv x c).n1 = x.n1 := rfl

@[simp] theorem scalarDiv_n2 (x c) : (scalarDiv x c).n2 = x.n2 := rfl

@[simp] theorem softmaxLast_n0 (e x) : (softmaxLast e x).n0 = x.n0 := rfl

@[simp] theorem softmaxLast_n1 (e x) : (softmaxLast e x).n1 = x.n1 := rfl

@[simp] theorem softmaxLast_n2 (e x) : (softmaxLast e x).n2 = x.n2 := rfl

@[simp] theorem lstmOutputs_n0 (F w x) : (lstmOutputs F w x).n0 = x.n0 := rfl

@[simp] theorem lstmOutputs_n1 (F w x) : (lstmOutputs F w x).n1 = x.n1 := rfl

@[simp] theorem lstmOutputs_n2 (F w x) : (lstmOutputs F w x).n2 = lstm_output_dim := rfl

theorem conv1d_eq_some (inC outC k s p w b) (x : Tensor3)
    (h1 : x.n1 = inC) (h2 : k ≤ x.n2 + 2 * p) :
    conv1d inC outC k s p w b x = some (conv1dOut inC outC k s p w b x) :=
  if_pos ⟨h1, h2⟩

theorem conv1d_eq_none (inC outC k s p w b) (x : Tensor3) (h : x.n1 ≠ inC) :
    conv1d inC outC k s p w b x = none :=
  if_neg fun hc => h hc.1

theorem bn_forward_eval (F bn) (x : Tensor3) (h : x.n1 = bn.num_features) :
    BatchNorm1d.forward F false bn x = some (bnEvalOut F bn x, bn) := by
  simp [BatchNorm1d.forward, h]

theorem bn_forward_train (F bn) (x : Tensor3) (h : x.n1 = bn.num_features)
    (hN : 1 < x.n0 * x.n2) :
    BatchNorm1d.forward F true bn x = some (bnTrainOut F bn x, bn.trainStep x) := by
  simp [BatchNorm1d.forward, h, hN]

theorem bn_forward_shape (F : Funs) (tr : Bool) (bn : BatchNorm1d) (x : Tensor3)
    (h : x.n1 = bn.num_features) (hN : 1 < x.n0 * x.n2) :
    ∃ y bn', BatchNorm1d.forward F tr bn x = some (y, bn') ∧
      y.n0 = x.n0 ∧ y.n1 = x.n1 ∧ y.n2 = x.n2 := by
  cases tr
  · exact ⟨_, _, bn_forward_eval F bn x h, rfl, rfl, rfl⟩
  · exact ⟨_, _, bn_forward_train F bn x h hN, rfl, rfl, rfl⟩

theorem maxPool1d_eq_some (k s) (x : Tensor3) (h : k ≤ x.n2) :
    maxPool1d k s x = some (maxPool1dOut k s x) :=
  if_pos h

theorem Linear.forward_eq_some (L : Linear) (x : Tensor3) (h : x.n2 = L.in_features) :
    L.forward x = some (linearOut L x) :=
  if_pos h

theorem matmul3_eq_some (a b : Tensor3) (h1 : a.n0 = b.n0) (h2 : a.n2 = b.n1) :
    matmul3 a b = some (matmul3Out a b) :=
  if_pos ⟨h1, h2⟩

theorem lstm_forward_eq_some (F w) (x : Tensor3) (h : x.n2 = lstm_input_dim) :
    LSTMWeights.forward F w x = some (lstmOutputs F w x, lstmFinalH F w x, lstmFinalC F w x) :=
  if_pos h

theorem conv1d_cases (inC outC k s p w b) (x : Tensor3) :
    conv1d inC outC k s p w b x = none ∨
    conv1d inC outC k s p w b x = some (conv1dOut inC outC k s p w b x) := by
  unfold conv1d; split <;> simp

theorem maxPool1d_cases (k s) (x : Tensor3) :
    maxPool1d k s x = none ∨ maxPool1d k s x = some (maxPool1dOut k s x) := by
  unfold maxPool1d; split <;> simp

theorem bn_eval_cases (F bn) (x : Tensor3) :
    BatchNorm1d.forward F false bn x = none ∨
    BatchNorm1d.forward F false bn x = some (bnEvalOut F bn x, bn) := by
  unfold BatchNorm1d.forward; split <;> simp

theorem linear_forward_cases (L : Linear) (x : Tensor3) :
    L.forward x = none ∨ L.forward x = some (linearOut L x) := by
  unfold Linear.forward; split <;> simp

theorem matmul3_cases (a b : Tensor3) :
    matmul3 a b = none ∨ matmul3 a b = some (matmul3Out a b) := by
  unfold matmul3; split <;> simp

theorem lstm_forward_cases (F w) (x : Tensor3) :
    LSTMWeights.forward F w x = none ∨
    LSTMWeights.forward F w x = some (lstmOutputs F w x, lstmFinalH F w x, lstmFinalC F w x) := by
  unfold LSTMWeights.forward; split <;> simp

theorem one_lt_mul_nat (a b : ℕ) (ha : 1 ≤ a) (hb : 2 ≤ b) : 1 < a * b := by
  have h : b ≤ a * b := Nat.le_mul_of_pos_left b (by omega)
  omega

/-- Shape behaviour of `TemporalCNN.forward`: on a `[B, C, T]` input with matching
channel count, `B ≥ 1` and `T ≥ 4`, it succeeds (in either mode) and returns a
`[B, 128, ⌊⌊T/2⌋/2⌋]` tensor. -/
theorem tcnn_spec (F : Funs) (tr : Bool) (s : TemporalCNN) (x : Tensor3)
    (hWF : s.WF) (hch : x.n1 = s.input_size) (hT : 4 ≤ x.n2) (hB : 1 ≤ x.n0) :
    ∃ y s', TemporalCNN.forward F tr s x = some (y, s') ∧
      y.n0 = x.n0 ∧ y.n1 = 128 ∧ y.n2 = x.n2 / 2 / 2 := by
  obtain ⟨hbn1, hbn2⟩ := hWF
  have hc1 := conv1d_eq_some s.input_size 64 3 1 1 s.conv1_weight s.conv1_bias x hch (by omega)
  have e1 : (conv1dOut s.input_size 64 3 1 1 s.conv1_weight s.conv1_bias x).n2 = x.n2 := by
    simp only [conv1dOut_n2]; omega
  obtain ⟨a2, bn1', hb1, hb1n0, hb1n1, hb1n2⟩ := bn_forward_shape F tr s.bn1
    (conv1dOut s.input_size 64 3 1 1 s.conv1_weight s.conv1_bias x)
    (by simp [hbn1])
    (by simp only [conv1dOut_n0, e1]; exact one_lt_mul_nat _ _ hB (by omega))
  rw [e1] at hb1n2
  rw [conv1dOut_n0] at hb1n0
  rw [conv1dOut_n1] at hb1n1
  have hp1 := maxPool1d_eq_some 2 2 (relu3 a2) (by simp only [relu3_n2, hb1n2]; omega)
  have hc2 := conv1d_eq_some 64 128 3 1 1 s.conv2_weight s.conv2_bias
    (maxPool1dOut 2 2 (relu3 a2))
    (by simp only [maxPool1dOut_n1, relu3_n1, hb1n1])
    (by simp only [maxPool1dOut_n2, relu3_n2, hb1n2]; omega)
  have e3 : (conv1dOut 64 128 3 1 1 s.conv2_weight s.conv2_bias
      (maxPool1dOut 2 2 (relu3 a2))).n2 = x.n2 / 2 := by
    simp only [conv1dOut_n2, maxPool1dOut_n2, relu3_n2, hb1n2]; omega
  obtain ⟨a6, bn2', hb2, hb2n0, hb2n1, hb2n2⟩ := bn_forward_shape F tr s.bn2
    (conv1dOut 64 128 3 1 1 s.conv2_weight s.conv2_bias (maxPool1dOut 2 2 (relu3 a2)))
    (by simp [hbn2])
    (by simp only [conv1dOut_n0, maxPool1dOut_n0, relu3_n0, hb1n0, e3]
        exact one_lt_mul_nat _ _ hB (by omega))
  rw [e3] at hb2n2
  have hb2n0' : a6.n0 = x.n0 := by
    rw [hb2n0]; simp only [conv1dOut_n0, maxPool1dOut_n0, relu3_n0, hb1n0]
  have hb2n1' : a6.n1 = 128 := by rw [hb2n1]; simp only [conv1dOut_n1]
  have hp2 := maxPool1d_eq_some 2 2 (relu3 a6) (by simp only [relu3_n2, hb2n2]; omega)
  refine ⟨maxPool1dOut 2 2 (relu3 a6), { s with bn1 := bn1', bn2 := bn2' }, ?_, ?_, ?_, ?_⟩
  · simp only [TemporalCNN.forward, hc1, Option.some_bind, hb1, hp1, hc2, hb2, hp2,
      Option.map_some']
  · simp only [maxPool1dOut_n0, relu3_n0, hb2n0']
  · simp only [maxPool1dOut_n1, relu3_n1, hb2n1']
  · simp only [maxPool1dOut_n2, relu3_n2, hb2n2]; omega

theorem bn_eval_state (F bn) (x : Tensor3) (p : Tensor3 × BatchNorm1d)
    (h : BatchNorm1d.forward F false bn x = some p) : p.2 = bn := by
  rcases bn_eval_cases F bn x with hc | hc <;> rw [hc] at h
  · exact Option.noConfusion h
  · cases h; rfl

/-- An evaluation-mode `TemporalCNN.forward` call leaves the module state unchanged. -/
theorem tcnn_eval_state (F : Funs) (s : TemporalCNN) (x : Tensor3) (p : Tensor3 × TemporalCNN)
    (h : TemporalCNN.forward F false s x = some p) : p.2 = s := by
  unfold TemporalCNN.forward at h
  simp only [Option.bind_eq_some, Option.map_eq_some'] at h
  obtain ⟨a1, hc1, r1, hb1, a4, hp1, a5, hc2, r2, hb2, a8, hp2, hfin⟩ := h
  have e1 := bn_eval_state F s.bn1 a1 r1 hb1
  have e2 := bn_eval_state F s.bn2 a5 r2 hb2
  rw [← hfin, e1, e2]

/-- A channel mismatch makes `TemporalCNN.forward` fail at the first convolution. -/
theorem tcnn_none (F : Funs) (tr : Bool) (s : TemporalCNN) (x : Tensor3)
    (h : x.n1 ≠ s.input_size) : TemporalCNN.forward F tr s x = none := by
  unfold TemporalCNN.forward
  rw [conv1d_eq_none s.input_size 64 3 1 1 s.conv1_weight s.conv1_bias x h]
  rfl

/-- If the size of the last axis of the input differs from the configured channel
count, `LSTMModel.forward` fails (the permuted tensor hits the first convolution
with the wrong channel count). -/
theorem forward_none_of_mismatch (F : Funs) (m : LSTMModel) (tr : Bool) (x : Tensor3)
    (hw : m.conv_layer.input_size = m.input_size) (h : x.n2 ≠ m.input_size) :
    LSTMModel.forward F m tr x = none := by
  have hp : (permute021 x).n1 ≠ m.conv_layer.input_size := by
    rw [permute021_n1, hw]; exact h
  simp only [LSTMModel.forward]
  rw [tcnn_none F tr m.conv_layer (permute021 x) hp]
  rfl

/-- An evaluation-mode `LSTMModel.forward` call leaves the model state unchanged. -/
theorem forward_eval_state (F : Funs) (m : LSTMModel) (x : Tensor3) (p : Tensor3 × LSTMModel)
    (h : LSTMModel.forward F m false x = some p) : p.2 = m := by
  simp only [LSTMModel.forward, Option.bind_eq_some, Option.map_eq_some'] at h
  obtain ⟨r1, hc, r2, hl, r3, ha, o3, hlin, hfin⟩ := h
  have e1 := tcnn_eval_state F m.conv_layer (permute021 x) r1 hc
  rw [← hfin, e1]

/-- Successful run of `SelfAttention.forward` on an input whose feature axis matches
the configured width: the exact pair of output tensors it returns, expressed with the
per-layer output constructors. -/
theorem sa_spec (F : Funs) (sa : SelfAttention) (x : Tensor3)
    (hWF : sa.WF) (hx : x.n2 = sa.num_features) :
    SelfAttention.forward F sa x =
      some (matmul3Out
              (softmaxLast F.exp (scalarDiv
                (matmul3Out (linearOut sa.query_matrix x) (permute021 (linearOut sa.key_matrix x)))
                (F.sqrt ((sa.num_features : ℚ)))))
              (linearOut sa.value_matrix x),
            softmaxLast F.exp (scalarDiv
              (matmul3Out (linearOut sa.query_matrix x) (permute021 (linearOut sa.key_matrix x)))
              (F.sqrt ((sa.num_features : ℚ))))) := by
  obtain ⟨hk1, hk2, hq1, hq2, hv1, hv2⟩ := hWF
  unfold SelfAttention.forward
  rw [Linear.forward_eq_some sa.key_matrix x (by rw [hx, hk1]),
      Linear.forward_eq_some sa.query_matrix x (by rw [hx, hq1]),
      Linear.forward_eq_some sa.value_matrix x (by rw [hx, hv1])]
  simp only [Option.some_bind]
  rw [matmul3_eq_some (linearOut sa.query_matrix x) (permute021 (linearOut sa.key_matrix x))
      rfl (by simp only [linearOut_n2, permute021_n1, hq2, hk2])]
  simp only [Option.some_bind]
  rw [matmul3_eq_some
      (softmaxLast F.exp (scalarDiv
        (matmul3Out (linearOut sa.query_matrix x) (permute021 (linearOut sa.key_matrix x)))
        (F.sqrt ((sa.num_features : ℚ)))))
      (linearOut sa.value_matrix x)
      rfl (by simp only [softmaxLast_n2, scalarDiv_n2, matmul3Out_n2, permute021_n2,
        linearOut_n1])]
  rfl

/-- `LSTMModel.forward` is the projection of the full pipeline trace onto the logits
and the updated CNN state: the attention weights and the LSTM final hidden/cell
states present in the trace are dropped from the public return value. -/
theorem forward_trace_eq (F : Funs) (m : LSTMModel) (tr : Bool) (x : Tensor3) :
    LSTMModel.forward F m tr x =
      (LSTMModel.forwardTrace F m tr x).map
        fun r => (r.logits, { m with conv_layer := r.cnn_state }) := by
  simp only [LSTMModel.forward, LSTMModel.forwardTrace]
  cases TemporalCNN.forward F tr m.conv_layer (permute021 x) with
  | none => rfl
  | some r1 =>
    simp only [Option.some_bind]
    cases LSTMWeights.forward F m.lstm_layer (permute021 r1.1) with
    | none => rfl
    | some r2 =>
      simp only [Option.some_bind]
      cases SelfAttention.forward F m.attention r2.1 with
      | none => rfl
      | some r3 =>
        simp only [Option.some_bind]
        cases m.linear_layer.forward r3.1 with
        | none => rfl
        | some o => rfl

/-- Shape behaviour of `LSTMModel.forward`: on a channels-last `[B, T, input_size]`
input with `B ≥ 1` and `T ≥ 4`, it succeeds (in either mode) and the logits have
shape `[B, ⌊⌊T/2⌋/2⌋, output_size]`. -/
theorem forward_spec (F : Funs) (m : LSTMModel) (tr : Bool) (x : Tensor3)
    (hWF : m.WF) (hB : 1 ≤ x.n0) (hT : 4 ≤ x.n1) (hch : x.n2 = m.input_size) :
    ∃ y m', LSTMModel.forward F m tr x = some (y, m') ∧
      y.n0 = x.n0 ∧ y.n1 = x.n1 / 2 / 2 ∧ y.n2 = m.output_size := by
  obtain ⟨hw1, hw2, hw3, hw4, hw5, hw6⟩ := hWF
  obtain ⟨y1, s', hcnn, hy0, hy1, hy2⟩ := tcnn_spec F tr m.conv_layer (permute021 x) hw2
    (by rw [permute021_n1, hch, hw1]) (by rw [permute021_n2]; exact hT)
    (by rw [permute021_n0]; exact hB)
  rw [permute021_n0] at hy0
  rw [permute021_n2] at hy2
  have hl : (permute021 y1).n2 = lstm_input_dim := by
    rw [permute021_n2, hy1]; rfl
  have hlstm := lstm_forward_eq_some F m.lstm_layer (permute021 y1) hl
  have hsa := sa_spec F m.attention (lstmOutputs F m.lstm_layer (permute021 y1)) hw3
    (by rw [lstmOutputs_n2, hw4])
  have hlin : (matmul3Out
      (softmaxLast F.exp (scalarDiv (matmul3Out (linearOut m.attention.query_matrix
        (lstmOutputs F m.lstm_layer (permute021 y1)))
        (permute021 (linearOut m.attention.key_matrix
          (lstmOutputs F m.lstm_layer (permute021 y1)))))
        (F.sqrt ((m.attention.num_features : ℚ)))))
      (linearOut m.attention.value_matrix (lstmOutputs F m.lstm_layer (permute021 y1)))).n2
      = m.linear_layer.in_features := by
    simp only [matmul3Out_n2, linearOut_n2]
    rw [hw5, ← hw4]
    exact hw3.2.2.2.2.2
  have hlin2 := Linear.forward_eq_some m.linear_layer _ hlin
  have hmain : LSTMModel.forward F m tr x =
      some (linearOut m.linear_layer (matmul3Out
        (softmaxLast F.exp (scalarDiv (matmul3Out (linearOut m.attention.query_matrix
          (lstmOutputs F m.lstm_layer (permute021 y1)))
          (permute021 (linearOut m.attention.key_matrix
            (lstmOutputs F m.lstm_layer (permute021 y1)))))
          (F.sqrt ((m.attention.num_features : ℚ)))))
        (linearOut m.attention.value_matrix (lstmOutputs F m.lstm_layer (permute021 y1)))),
        { m with conv_layer := s' }) := by
    simp only [LSTMModel.forward]
    rw [hcnn]
    simp only [Option.some_bind]
    rw [hlstm]
    simp only [Option.some_bind]
    rw [hsa]
    simp only [Option.some_bind]
    rw [hlin2]
    rfl
  refine ⟨_, _, hmain, ?_, ?_, ?_⟩
  · simp only [linearOut_n0, matmul3Out_n0, softmaxLast_n0, scalarDiv_n0, lstmOutputs_n0,
      permute021_n0, hy0]
  · simp only [linearOut_n1, matmul3Out_n1, softmaxLast_n1, scalarDiv_n1, lstmOutputs_n1,
      permute021_n1, hy2]
  · simp only [linearOut_n2, hw6]

theorem exM_WF : exM.WF :=
  ⟨rfl, ⟨rfl, rfl⟩, ⟨rfl, rfl, rfl, rfl, rfl, rfl⟩, rfl, rfl, rfl⟩

theorem softmaxLast_data (e) (x : Tensor3) (b i j : ℕ) :
    (softmaxLast e x).data b i j =
      e (x.data b i j) / ∑ k ∈ Finset.range x.n2, e (x.data b i k) := rfl

theorem matmul3Out_data (a b : Tensor3) (p i j : ℕ) :
    (matmul3Out a b).data p i j =
      ∑ q ∈ Finset.range a.n2, a.data p i q * b.data p q j := rfl

theorem bn_train_state (F bn) (x : Tensor3) (p : Tensor3 × BatchNorm1d)
    (h : BatchNorm1d.forward F true bn x = some p) :
    p.1 = bnTrainOut F bn x ∧ p.2 = bn.trainStep x := by
  unfold BatchNorm1d.forward at h
  rw [if_pos (rfl : (true : Bool) = true)] at h
  split at h
  · split at h
    · cases h; exact ⟨rfl, rfl⟩
    · exact Option.noConfusion h
  · exact Option.noConfusion h

theorem maxPool1d_some_inv (k s) (z : Tensor3) (a : Tensor3)
    (h : maxPool1d k s z = some a) : a = maxPool1dOut k s z := by
  unfold maxPool1d at h
  split at h
  · cases h; rfl
  · exact Option.noConfusion h

/-- A successful training-mode `TemporalCNN.forward` call updates exactly the two
BatchNorm layers, each by its `trainStep` on the tensor that normalization layer saw. -/
theorem tcnn_train_state (F : Funs) (s : TemporalCNN) (x y : Tensor3) (s' : TemporalCNN)
    (ht : TemporalCNN.forward F true s x = some (y, s')) :
    ∃ a1 a5, conv1d s.input_size 64 3 1 1 s.conv1_weight s.conv1_bias x = some a1 ∧
      conv1d 64 128 3 1 1 s.conv2_weight s.conv2_bias
        (maxPool1dOut 2 2 (relu3 (bnTrainOut F s.bn1 a1))) = some a5 ∧
      s' = { s with bn1 := s.bn1.trainStep a1, bn2 := s.bn2.trainStep a5 } := by
  unfold TemporalCNN.forward at ht
  simp only [Option.bind_eq_some, Option.map_eq_some'] at ht
  obtain ⟨a1, hc1, r1, hb1, a4, hp1, a5, hc2, r2, hb2, a8, hp2, hfin⟩ := ht
  obtain ⟨e11, e12⟩ := bn_train_state F s.bn1 a1 r1 hb1
  obtain ⟨e21, e22⟩ := bn_train_state F s.bn2 a5 r2 hb2
  have ha4 : a4 = maxPool1dOut 2 2 (relu3 (bnTrainOut F s.bn1 a1)) := by
    rw [maxPool1d_some_inv 2 2 (relu3 r1.1) a4 hp1, e11]
  injection hfin with hy hs
  refine ⟨a1, a5, hc1, ?_, ?_⟩
  · rw [← ha4]; exact hc2
  · rw [← hs, e12, e22]

/-! ## Claim theorems -/

/-- C1 (amended): for every batch size `B ≥ 1` and sequence length `T` a positive
multiple of 4, calling `LSTMModel.forward` on an input tensor of shape
`[B, T, input_size]` (channels on the LAST axis — the layout the permute-first
pipeline actually accepts) returns a tensor of shape `[B, T/4, output_size]`. -/
theorem C1_forward_shape (F : Funs) (m : LSTMModel) (tr : Bool) (x : Tensor3) (B T : ℕ)
    (hWF : m.WF) (hx0 : x.n0 = B) (hx1 : x.n1 = T) (hx2 : x.n2 = m.input_size)
    (hB : 1 ≤ B) (hT4 : 4 ∣ T) (hT : 1 ≤ T) :
    ∃ y m', LSTMModel.forward F m tr x = some (y, m') ∧
      y.n0 = B ∧ y.n1 = T / 4 ∧ y.n2 = m.output_size := by
  obtain ⟨y, m', h, h0, h1, h2⟩ := forward_spec F m tr x hWF (by omega) (by omega) hx2
  exact ⟨y, m', h, by omega, by omega, h2⟩

/-- Witness for C1: the zero-weight model with `input_size = 8`, `output_size = 2`
on an all-zero `[1, 4, 8]` input yields logits of shape `[1, 1, 2]`. -/
theorem C1_forward_shape_witness :
    ∃ y m', LSTMModel.forward F0 exM false (zt 1 4 8) = some (y, m') ∧
      y.n0 = 1 ∧ y.n1 = 1 ∧ y.n2 = exM.output_size :=
  C1_forward_shape F0 exM false (zt 1 4 8) 1 4 exM_WF rfl rfl rfl (by decide) (by decide)
    (by decide)

/-- Counterexample to C1 as stated: on the `[B, input_size, T]` layout the claim
names (here `[1, 8, 4]`, so `B = 1`, `input_size = 8`, `T = 4` divisible by 4),
`LSTMModel.forward` raises a shape error (the permute puts `T = 4` channels in
front of the `input_size = 8` convolution) instead of returning a `[1, 1, 2]`
tensor. -/
theorem C1_counterexample :
    (zt 1 8 4).n0 = 1 ∧ (zt 1 8 4).n1 = exM.input_size ∧ (zt 1 8 4).n2 = 4 ∧
    ¬ ∃ y m', LSTMModel.forward F0 exM false (zt 1 8 4) = some (y, m') := by
  refine ⟨rfl, rfl, rfl, ?_⟩
  intro ⟨y, m', h⟩
  rw [show LSTMModel.forward F0 exM false (zt 1 8 4) = none from rfl] at h
  exact Option.noConfusion h

/-- C3 (amended): for `B ≥ 1` and `T ≥ 4`, `TemporalCNN.forward` maps a `[B, C_in, T]`
input with matching channel count to a `[B, 128, ⌊⌊T/2⌋/2⌋]` output; moreover each
convolution (kernel 3, stride 1, padding 1) preserves any sequence length `≥ 1` and
each max pooling (window 2, stride 2) maps any sequence length `≥ 2` to its floored
half.  (For `T = 2` or `3` the second pooling rejects its length-1 input, so the
bound `T ≥ 4` — not the claimed `T ≥ 2` — is required.) -/
theorem C3_tcnn_shape (F : Funs) (tr : Bool) (s : TemporalCNN) (x : Tensor3) (B T : ℕ)
    (hWF : s.WF) (hx0 : x.n0 = B) (hx1 : x.n1 = s.input_size) (hx2 : x.n2 = T)
    (hB : 1 ≤ B) (hT : 4 ≤ T) :
    (∃ y s', TemporalCNN.forward F tr s x = some (y, s') ∧
      y.n0 = B ∧ y.n1 = 128 ∧ y.n2 = T / 2 / 2) ∧
    (∀ (inC outC : ℕ) (w : ℕ → ℕ → ℕ → ℚ) (bias : ℕ → ℚ) (z : Tensor3),
      z.n1 = inC → 1 ≤ z.n2 →
      ∃ c, conv1d inC outC 3 1 1 w bias z = some c ∧ c.n2 = z.n2) ∧
    (∀ z : Tensor3, 2 ≤ z.n2 → ∃ pz, maxPool1d 2 2 z = some pz ∧ pz.n2 = z.n2 / 2) := by
  refine ⟨?_, ?_, ?_⟩
  · obtain ⟨y, s', h, h0, h1, h2⟩ := tcnn_spec F tr s x hWF hx1 (by omega) (by omega)
    exact ⟨y, s', h, by omega, h1, by omega⟩
  · intro inC outC w bias z hz1 hz2
    exact ⟨_, conv1d_eq_some inC outC 3 1 1 w bias z hz1 (by omega),
      by simp only [conv1dOut_n2]; omega⟩
  · intro z hz
    exact ⟨_, maxPool1d_eq_some 2 2 z hz, by simp only [maxPool1dOut_n2]; omega⟩

/-- Witness for C3: the zero-weight single-channel CNN on an all-zero `[1, 1, 4]`
input yields a `[1, 128, 1]` output. -/
theorem C3_tcnn_shape_witness :
    (∃ y s', TemporalCNN.forward F0 false (exCNN 1) (zt 1 1 4) = some (y, s') ∧
      y.n0 = 1 ∧ y.n1 = 128 ∧ y.n2 = 1) ∧
    (∀ (inC outC : ℕ) (w : ℕ → ℕ → ℕ → ℚ) (bias : ℕ → ℚ) (z : Tensor3),
      z.n1 = inC → 1 ≤ z.n2 →
      ∃ c, conv1d inC outC 3 1 1 w bias z = some c ∧ c.n2 = z.n2) ∧
    (∀ z : Tensor3, 2 ≤ z.n2 → ∃ pz, maxPool1d 2 2 z = some pz ∧ pz.n2 = z.n2 / 2) :=
  C3_tcnn_shape F0 false (exCNN 1) (zt 1 1 4) 1 4 ⟨rfl, rfl⟩ rfl rfl rfl
    (by decide) (by decide)

/-- Counterexample to C3 as stated: at `T = 2` (which the claim admits via `T ≥ 2`)
the second pooling receives a length-1 input and the forward call errors, instead of
returning a `[1, 128, 0]` tensor. -/
theorem C3_counterexample :
    (zt 1 1 2).n1 = (exCNN 1).input_size ∧ (zt 1 1 2).n2 = 2 ∧
    ¬ ∃ y s', TemporalCNN.forward F0 false (exCNN 1) (zt 1 1 2) = some (y, s') := by
  refine ⟨rfl, rfl, ?_⟩
  intro ⟨y, s', h⟩
  rw [show TemporalCNN.forward F0 false (exCNN 1) (zt 1 1 2) = none from rfl] at h
  exact Option.noConfusion h

/-- C6 (amended): if the channel axis the convolution actually sees (the LAST axis of
the input, because of the initial permute) differs from the configured `input_size`,
`LSTMModel.forward` fails with the shape error raised by the convolution layer —
there is no internal validation; when the channel counts agree it succeeds provided
the remaining dimensions are admissible (`B ≥ 1`, `T ≥ 4`). -/
theorem C6_channel_mismatch (F : Funs) (m : LSTMModel) (tr : Bool) (x : Tensor3)
    (hWF : m.WF) :
    (x.n2 ≠ m.input_size → LSTMModel.forward F m tr x = none) ∧
    (x.n2 = m.input_size → 1 ≤ x.n0 → 4 ≤ x.n1 →
      ∃ y m', LSTMModel.forward F m tr x = some (y, m')) := by
  refine ⟨fun h => forward_none_of_mismatch F m tr x hWF.1 h, fun h hB hT => ?_⟩
  obtain ⟨y, m', hy, -, -, -⟩ := forward_spec F m tr x hWF hB hT h
  exact ⟨y, m', hy⟩

/-- Witness for C6: the zero-weight model errors on a `[1, 4, 7]` input (7 ≠ 8
channels) and succeeds on a `[1, 4, 8]` input. -/
theorem C6_channel_mismatch_witness :
    LSTMModel.forward F0 exM false (zt 1 4 7) = none ∧
    ∃ y m', LSTMModel.forward F0 exM false (zt 1 4 8) = some (y, m') :=
  ⟨(C6_channel_mismatch F0 exM false (zt 1 4 7) exM_WF).1 (by decide),
   (C6_channel_mismatch F0 exM false (zt 1 4 8) exM_WF).2 rfl (by decide) (by decide)⟩

/-- Counterexample to C6 as stated: agreement of the channel counts alone does not
guarantee success — on a `[1, 2, 8]` input the channel count matches `input_size = 8`
yet the forward call still errors, because the downsampled sequence becomes too short
for the second pooling. -/
theorem C6_counterexample :
    (zt 1 2 8).n2 = exM.input_size ∧
    ¬ ∃ y m', LSTMModel.forward F0 exM false (zt 1 2 8) = some (y, m') := by
  refine ⟨rfl, ?_⟩
  intro ⟨y, m', h⟩
  rw [show LSTMModel.forward F0 exM false (zt 1 2 8) = none from rfl] at h
  exact Option.noConfusion h

/-- C9: `LSTMModel.forward` factors through `permute021` applied to its input as the
unconditional first step, so the channel axis that meets the first convolution is the
LAST axis of the public input; consequently an input whose last axis differs from
`input_size` is rejected. -/
theorem C9_input_layout (F : Funs) (m : LSTMModel) (tr : Bool) (x : Tensor3) :
    (LSTMModel.forward F m tr x = LSTMModel.forwardFromPermuted F m tr (permute021 x)) ∧
    (m.conv_layer.input_size = m.input_size → x.n2 ≠ m.input_size →
      LSTMModel.forward F m tr x = none) :=
  ⟨rfl, fun hw h => forward_none_of_mismatch F m tr x hw h⟩

/-- Witness for C9: the zero-weight model rejects a `[1, 4, 7]` input because its
last axis (7) differs from `input_size = 8`. -/
theorem C9_input_layout_witness :
    LSTMModel.forward F0 exM false (zt 1 4 7) = none :=
  (C9_input_layout F0 exM false (zt 1 4 7)).2 rfl (by decide)

/-- C5: the tensor `LSTMModel.forward` returns is raw logits — exactly the final
linear projection applied to the attention output independently at every timestep,
with no softmax or other normalization applied before returning (the in-source
softmax is commented out). -/
theorem C5_raw_logits (F : Funs) (m : LSTMModel) (tr : Bool) (x : Tensor3) :
    ((LSTMModel.forward F m tr x).map Prod.fst =
      (LSTMModel.forwardTrace F m tr x).map fun r => r.logits) ∧
    (((LSTMModel.forwardTrace F m tr x).map fun r => r.logits) =
      (LSTMModel.forwardTrace F m tr x).map fun r => linearOut m.linear_layer r.attn_out) ∧
    ∀ (L : Linear) (z : Tensor3) (b t v : ℕ),
      (linearOut L z).data b t v =
        L.bias v + ∑ d ∈ Finset.range L.in_features, L.weight v d * z.data b t d := by
  refine ⟨?_, ?_, fun L z b t v => rfl⟩
  · rw [forward_trace_eq]
    cases LSTMModel.forwardTrace F m tr x with
    | none => rfl
    | some r => rfl
  · simp only [LSTMModel.forwardTrace]
    cases TemporalCNN.forward F tr m.conv_layer (permute021 x) with
    | none => rfl
    | some r1 =>
      simp only [Option.some_bind]
      cases LSTMWeights.forward F m.lstm_layer (permute021 r1.1) with
      | none => rfl
      | some r2 =>
        simp only [Option.some_bind]
        cases SelfAttention.forward F m.attention r2.1 with
        | none => rfl
        | some r3 =>
          simp only [Option.some_bind]
          rcases linear_forward_cases m.linear_layer r3.1 with hc | hc <;> rw [hc] <;> rfl

/-- C7: in evaluation mode `LSTMModel.forward` is deterministic as a two-run
property: a first call leaves the model state unchanged, and a second call from the
post-state on the same input returns exactly the same result. -/
theorem C7_eval_determinism (F : Funs) (m : LSTMModel) (x : Tensor3) :
    ((LSTMModel.forward F m false x).map Prod.snd =
      (LSTMModel.forward F m false x).map fun _ => m) ∧
    LSTMModel.forward F (((LSTMModel.forward F m false x).map Prod.snd).getD m) false x =
      LSTMModel.forward F m false x := by
  cases h : LSTMModel.forward F m false x with
  | none => simp [h]
  | some p =>
    have hp := forward_eval_state F m x p h
    simp [h, hp]

/-- C8 (amended): a successful training-mode `TemporalCNN.forward` call mutates
exactly the BatchNorm buffers — each layer's running mean and variance are replaced
by their momentum blend with the batch statistics of the tensor that layer saw, and
each `num_batches_tracked` counter is incremented — while every parameter and every
other field is unchanged; an evaluation-mode call leaves the whole state unchanged. -/
theorem C8_training_frame (F : Funs) (s : TemporalCNN) (x y : Tensor3) (s' : TemporalCNN)
    (ht : TemporalCNN.forward F true s x = some (y, s')) :
    s'.input_size = s.input_size ∧
    s'.conv1_weight = s.conv1_weight ∧ s'.conv1_bias = s.conv1_bias ∧
    s'.conv2_weight = s.conv2_weight ∧ s'.conv2_bias = s.conv2_bias ∧
    (∃ a1, conv1d s.input_size 64 3 1 1 s.conv1_weight s.conv1_bias x = some a1 ∧
      s'.bn1 = s.bn1.trainStep a1) ∧
    (∃ a5, s'.bn2 = s.bn2.trainStep a5) ∧
    s'.bn1.weight = s.bn1.weight ∧ s'.bn1.bias = s.bn1.bias ∧
    s'.bn1.num_batches_tracked = s.bn1.num_batches_tracked + 1 ∧
    s'.bn2.weight = s.bn2.weight ∧ s'.bn2.bias = s.bn2.bias ∧
    s'.bn2.num_batches_tracked = s.bn2.num_batches_tracked + 1 ∧
    ∀ x' : Tensor3, (TemporalCNN.forward F false s x').map Prod.snd =
      (TemporalCNN.forward F false s x').map fun _ => s := by
  obtain ⟨a1, a5, hc1, hc5, hs⟩ := tcnn_train_state F s x y s' ht
  subst hs
  refine ⟨rfl, rfl, rfl, rfl, rfl, ⟨a1, hc1, rfl⟩, ⟨a5, rfl⟩, rfl, rfl, rfl, rfl, rfl, rfl, ?_⟩
  intro x'
  cases h' : TemporalCNN.forward F false s x' with
  | none => simp [h']
  | some p =>
    have hp := tcnn_eval_state F s x' p h'
    simp [h', hp]

/-- Witness for C8: a concrete training-mode run of the zero-weight single-channel
CNN on an all-zero `[1, 1, 4]` input increments both batch counters and keeps the
convolution weights. -/
theorem C8_training_frame_witness :
    exS8.bn1.num_batches_tracked = (exCNN 1).bn1.num_batches_tracked + 1 ∧
    exS8.bn2.num_batches_tracked = (exCNN 1).bn2.num_batches_tracked + 1 ∧
    exS8.conv1_weight = (exCNN 1).conv1_weight := by
  have h : TemporalCNN.forward F0 true (exCNN 1) (zt 1 1 4) = some (exY8, exS8) := rfl
  obtain ⟨-, h2, -, -, -, -, -, -, -, h10, -, -, h13, -⟩ :=
    C8_training_frame F0 (exCNN 1) (zt 1 1 4) exY8 exS8 h
  exact ⟨h10, h13, h2⟩

/-- Counterexample to C8 as stated: besides the running mean/variance, the training
forward also mutates the `num_batches_tracked` buffer of each normalization layer —
stored state that is neither a running mean nor a running variance — so "no other
stored state" fails. -/
theorem C8_counterexample :
    ∃ y s', TemporalCNN.forward F0 true (exCNN 1) (zt 1 1 4) = some (y, s') ∧
      s'.bn1.num_batches_tracked ≠ (exCNN 1).bn1.num_batches_tracked :=
  ⟨exY8, exS8, rfl, by decide⟩

/-- C10: `LSTMModel.forward` returns exactly one tensor, the logits: it is the
projection of the full pipeline trace — which also contains the attention weights
and the LSTM final hidden/cell states — onto the logits and the updated CNN state,
so the discarded intermediates are not observable from the return value. -/
theorem C10_single_return (F : Funs) (m : LSTMModel) (tr : Bool) (x : Tensor3) :
    LSTMModel.forward F m tr x =
      (LSTMModel.forwardTrace F m tr x).map
        fun r => (r.logits, { m with conv_layer := r.cnn_state }) :=
  forward_trace_eq F m tr x

/-- C2: on any input whose feature axis matches the block width `D`,
`SelfAttention.forward` succeeds and returns `(output, attention weights)` with
`output` of the input's shape `[B, T', D]` and weights of shape `[B, T', T']`; the
weights are the softmax of the raw scores `matmul(query, keyᵀ)` divided by `sqrt(D)`,
and the output is the matrix product of the softmaxed weights with the value
projections (pointwise equal to the spec-side description `saSpecWeight`/`saSpecOut`). -/
theorem C2_attention_contract (F : Funs) (sa : SelfAttention) (x : Tensor3) (B T D : ℕ)
    (hWF : sa.WF) (hx0 : x.n0 = B) (hx1 : x.n1 = T) (hx2 : x.n2 = D)
    (hD : D = sa.num_features) :
    ∃ out w, SelfAttention.forward F sa x = some (out, w) ∧
      out.n0 = B ∧ out.n1 = T ∧ out.n2 = D ∧ w.n0 = B ∧ w.n1 = T ∧ w.n2 = T ∧
      (∀ b i j, w.data b i j = saSpecWeight F sa x b i j) ∧
      (∀ b i d, out.data b i d = saSpecOut F sa x b i d) := by
  obtain ⟨hk1, hk2, hq1, hq2, hv1, hv2⟩ := hWF
  have h := sa_spec F sa x ⟨hk1, hk2, hq1, hq2, hv1, hv2⟩ (hx2.trans hD)
  have hwdata : ∀ b i j,
      (softmaxLast F.exp (scalarDiv (matmul3Out (linearOut sa.query_matrix x)
        (permute021 (linearOut sa.key_matrix x)))
        (F.sqrt ((sa.num_features : ℚ))))).data b i j
      = saSpecWeight F sa x b i j := by
    intro b i j
    simp only [softmaxLast, scalarDiv, matmul3Out, permute021, linearOut,
      saSpecWeight, saSpecScore, saSpecQuery, saSpecKey, hk1, hk2, hq1, hq2]
  have houtdata : ∀ b i d,
      (matmul3Out (softmaxLast F.exp (scalarDiv (matmul3Out (linearOut sa.query_matrix x)
        (permute021 (linearOut sa.key_matrix x))) (F.sqrt ((sa.num_features : ℚ)))))
        (linearOut sa.value_matrix x)).data b i d
      = saSpecOut F sa x b i d := by
    intro b i d
    simp only [matmul3Out, softmaxLast, scalarDiv, permute021, linearOut, saSpecOut,
      saSpecWeight, saSpecScore, saSpecQuery, saSpecKey, saSpecValue,
      hk1, hk2, hq1, hq2, hv1, hv2]
  refine ⟨_, _, h, ?_, ?_, ?_, ?_, ?_, ?_, hwdata, houtdata⟩
  · simp only [matmul3Out_n0, softmaxLast_n0, scalarDiv_n0, linearOut_n0, hx0]
  · simp only [matmul3Out_n1, softmaxLast_n1, scalarDiv_n1, linearOut_n1, hx1]
  · simp only [matmul3Out_n2, linearOut_n2, hv2, ← hD]
  · simp only [softmaxLast_n0, scalarDiv_n0, matmul3Out_n0, linearOut_n0, hx0]
  · simp only [softmaxLast_n1, scalarDiv_n1, matmul3Out_n1, linearOut_n1, hx1]
  · simp only [softmaxLast_n2, scalarDiv_n2, matmul3Out_n2, permute021_n2, linearOut_n1, hx1]

/-- Witness for C2 at the zero-weight width-1 attention block on an all-zero
`[1, 1, 1]` input. -/
theorem C2_attention_contract_witness :
    ∃ out w, SelfAttention.forward F0 (exSA 1) (zt 1 1 1) = some (out, w) ∧
      out.n0 = 1 ∧ out.n1 = 1 ∧ out.n2 = 1 ∧ w.n0 = 1 ∧ w.n1 = 1 ∧ w.n2 = 1 ∧
      (∀ b i j, w.data b i j = saSpecWeight F0 (exSA 1) (zt 1 1 1) b i j) ∧
      (∀ b i d, out.data b i d = saSpecOut F0 (exSA 1) (zt 1 1 1) b i d) :=
  C2_attention_contract F0 (exSA 1) (zt 1 1 1) 1 1 1 ⟨rfl, rfl, rfl, rfl, rfl, rfl⟩
    rfl rfl rfl rfl

/-- C4: the attention-weight matrix is row-stochastic — along the last axis every
row of valid index sums to 1 and every entry lies in `[0, 1]` — for any exponential
function that is everywhere positive (as the real exponential is). -/
theorem C4_row_stochastic (F : Funs) (sa : SelfAttention) (x : Tensor3)
    (hWF : sa.WF) (hx : x.n2 = sa.num_features) (hexp : ∀ q : ℚ, 0 < F.exp q) :
    ∃ out w, SelfAttention.forward F sa x = some (out, w) ∧
      ∀ b i, i < w.n1 →
        ((∑ j ∈ Finset.range w.n2, w.data b i j) = 1 ∧
         ∀ j, j < w.n2 → 0 ≤ w.data b i j ∧ w.data b i j ≤ 1) := by
  have h := sa_spec F sa x hWF hx
  refine ⟨_, _, h, ?_⟩
  intro b i hi
  rw [softmaxLast_n1, scalarDiv_n1, matmul3Out_n1, linearOut_n1] at hi
  have hscn2 : (scalarDiv (matmul3Out (linearOut sa.query_matrix x)
      (permute021 (linearOut sa.key_matrix x))) (F.sqrt ((sa.num_features : ℚ)))).n2
      = x.n1 := by
    simp only [scalarDiv_n2, matmul3Out_n2, permute021_n2, linearOut_n1]
  have hS : 0 < ∑ k ∈ Finset.range x.n1,
      F.exp ((scalarDiv (matmul3Out (linearOut sa.query_matrix x)
        (permute021 (linearOut sa.key_matrix x)))
        (F.sqrt ((sa.num_features : ℚ)))).data b i k) :=
    Finset.sum_pos (fun k _ => hexp _) (Finset.nonempty_range_iff.mpr (by omega))
  constructor
  · rw [softmaxLast_n2, hscn2]
    simp only [softmaxLast_data, hscn2]
    rw [← Finset.sum_div, div_self (ne_of_gt hS)]
  · intro j hj
    rw [softmaxLast_n2, hscn2] at hj
    constructor
    · rw [softmaxLast_data, hscn2]
      exact div_nonneg (hexp _).le hS.le
    · rw [softmaxLast_data, hscn2]
      refine div_le_one_of_le₀ ?_ hS.le
      exact Finset.single_le_sum (fun k _ => (hexp _).le) (Finset.mem_range.mpr hj)

/-- Witness for C4 at the zero-weight width-1 attention block on an all-zero
`[1, 1, 1]` input, with the everywhere-positive constant-one exponential. -/
theorem C4_row_stochastic_witness :
    ∃ out w, SelfAttention.forward F0 (exSA 1) (zt 1 1 1) = some (out, w) ∧
      ∀ b i, i < w.n1 →
        ((∑ j ∈ Finset.range w.n2, w.data b i j) = 1 ∧
         ∀ j, j < w.n2 → 0 ≤ w.data b i j ∧ w.data b i j ≤ 1) :=
  C4_row_stochastic F0 (exSA 1) (zt 1 1 1) ⟨rfl, rfl, rfl, rfl, rfl, rfl⟩ rfl
    fun q => by norm_num [F0]
